import Mathlib

/-!
Shallow embedding of the Cartesia Line address-finder session engine
(`src/cartesia-agent/tools.py`).  Python dicts become Lean structures,
the Convex HTTP backend becomes an oracle function returning
`Except String _` (an `error` models a raised exception), and each tool
becomes a pure function from session state (plus oracles) to an
`OpResult` holding the new state, the returned status payload, the list
of attempted UI push notifications and the log lines produced by
swallowed push failures.
-/

namespace CartesiaTools

/-- A suggestion record as produced by the Convex place-suggestions
backend, plus the optional fields added by place-details enrichment.
An absent/empty place id is represented by the empty string, matching
the `s.get("placeId", "")` / `if not place_id` idiom in the source. -/
structure Suggestion where
  placeId : String := ""
  description : String := ""
  resultType : String := "general"
  suburb : Option String := none
  confidence : Int := 0
  types : List String := []
  structuredFormatting : Option String := none
  postcode : Option String := none
  lat : Option Int := none
  lng : Option Int := none
deriving Repr, DecidableEq, Inhabited

/-- The module-level `_session_state` dict. -/
structure SessionState where
  last_query : Option String := none
  last_suggestions : List Suggestion := []
  current_selection : Option Suggestion := none
  selection_acknowledged : Bool := false
  session_id : String := "default"
deriving Repr, DecidableEq, Inhabited

/-- The value part of a `getPlaceSuggestions` response
(`{success, suggestions, detectedIntent, error}`). -/
structure SuggestValue where
  success : Bool := false
  suggestions : List Suggestion := []
  detectedIntent : Option String := none
  error : Option String := none
deriving Repr, DecidableEq, Inhabited

/-- The `details` payload of a `getPlaceDetails` response. -/
structure PlaceDetails where
  formattedAddress : Option String := none
  suburb : Option String := none
  postcode : Option String := none
  lat : Option Int := none
  lng : Option Int := none
  types : Option (List String) := none
deriving Repr, DecidableEq, Inhabited

/-- The value part of a `getPlaceDetails` response (`{success, details}`). -/
structure DetailsValue where
  success : Bool := false
  details : Option PlaceDetails := none
deriving Repr, DecidableEq, Inhabited

/-- Arguments of a `getPlaceSuggestions` call:
`{query, intent, maxResults, isAutocomplete}`. -/
structure SuggestRequest where
  query : String
  intent : String
  maxResults : Option Nat
  isAutocomplete : Bool
deriving Repr, DecidableEq

/-- The suggestions backend: a call either returns a value or raises
(the `Except.error` carries the exception text). -/
def SuggestBackend := SuggestRequest → Except String SuggestValue

/-- The place-details backend, keyed by place id. -/
def DetailsBackend := String → Except String DetailsValue

/-- The Convex push-notification channel: given session id, update type
and data it either succeeds (`true`) or raises (`false`).  Failures are
swallowed by `_push_state_update`, so only the log can observe them. -/
def PushChannel := String → String → String → Bool

/-- Data payloads handed to `_push_state_update`, one constructor per
distinct `data` dict shape in the source. -/
inductive PushData where
  | suggestionsData (query : String) (intent : String)
      (suggestions : List Suggestion) : PushData
  | selectionData (suggestion : Suggestion) : PushData
  | clearData : PushData
  | acknowledgedData (acknowledged : Bool) : PushData
  | manualInputData (reason : String) : PushData
deriving Repr, DecidableEq

/-- One attempted push: the `updateType` string passed to
`_push_state_update` together with its data payload. -/
structure Push where
  updateType : String
  data : PushData
deriving Repr, DecidableEq

/-- The discriminated `{status, ...}` JSON payloads the tools return,
one constructor per distinct shape; `status_of` below recovers the
literal `status` string. -/
inductive ToolResult where
  | validated (count : Nat) (message : String) (note : String) : ToolResult
  | suggestions_available (count : Nat) (message : String) (note : String) : ToolResult
  | validation_failed (error : String) : ToolResult
  | error_result (error : String) : ToolResult
  | no_results (message : String) : ToolResult
  | not_found (error : String) : ToolResult
  | confirmed_result (message : String) (note : String) : ToolResult
  | cleared (message : String) : ToolResult
  | options_displayed (count : Nat) (message : String) (note : String) : ToolResult
  | acknowledged_result (message : String) : ToolResult
  | ok_result (selection_acknowledged : Bool) : ToolResult
  | hybrid_mode_activated (message : String) : ToolResult
  | state_dump (last_query : Option String) (num_suggestions : Nat)
      (has_selection : Bool) (selection_acknowledged : Bool)
      (current_selection : Option (String × Option String × Option String)) : ToolResult
deriving Repr, DecidableEq

/-- The literal `status` field of each returned payload. -/
def status_of : ToolResult → Option String
  | .validated .. => some "validated"
  | .suggestions_available .. => some "suggestions_available"
  | .validation_failed .. => some "validation_failed"
  | .error_result .. => some "error"
  | .no_results .. => some "no_results"
  | .not_found .. => some "not_found"
  | .confirmed_result .. => some "confirmed"
  | .cleared .. => some "cleared"
  | .options_displayed .. => some "options_displayed"
  | .acknowledged_result .. => some "acknowledged"
  | .ok_result .. => some "ok"
  | .hybrid_mode_activated .. => some "hybrid_mode_activated"
  | .state_dump .. => none

/-- What a tool invocation produces: the mutated session state, the
JSON payload returned to the agent (as a structured value), the pushes
attempted against the UI channel, and the log lines emitted when a push
failed (the `except` branch of `_push_state_update`). -/
structure OpResult where
  state : SessionState
  result : ToolResult
  pushes : List Push
  log : List String
deriving Repr, DecidableEq

/-- Python `str.lower()` (character-wise ASCII lowering, computed
structurally over the character list so proofs can evaluate it). -/
def py_lower (s : String) : String :=
  ⟨s.data.map Char.toLower⟩

/-- Drop leading and trailing whitespace from a character list. -/
def trim_chars (cs : List Char) : List Char :=
  ((cs.dropWhile Char.isWhitespace).reverse.dropWhile Char.isWhitespace).reverse

/-- Python `str.strip()`. -/
def py_strip (s : String) : String :=
  ⟨trim_chars s.data⟩

/-- Worker for `py_split`: walk the characters, accumulating the
current (reversed) word and emitting it at each whitespace run. -/
def words_aux : List Char → List Char → List String
  | [], cur => if cur.isEmpty then [] else [String.mk cur.reverse]
  | c :: rest, cur =>
    if c.isWhitespace then
      (if cur.isEmpty then [] else [String.mk cur.reverse]) ++ words_aux rest []
    else
      words_aux rest (c :: cur)

/-- Python `q.split()`: split on whitespace runs, dropping empty pieces. -/
def py_split (q : String) : List String :=
  words_aux q.data []

/-- `query.strip().lower()` (the local `q` of `_classify_intent`). -/
def query_norm (query : String) : String :=
  py_lower (py_strip query)

/-- The token list `words` of `_classify_intent`. -/
def query_words (query : String) : List String :=
  py_split (query_norm query)

/-- `words and re.match(r"^\d", words[0])`: the word list is non-empty
and the first word starts with a digit. -/
def starts_with_digit : List String → Bool
  | [] => false
  | w :: _ =>
    match w.data with
    | [] => false
    | c :: _ => c.isDigit

/-- The fixed `street_keywords` list. -/
def street_keywords : List String :=
  ["street", "st", "road", "rd", "avenue", "ave", "drive", "dr",
   "lane", "ln", "court", "ct", "crescent", "cres", "place", "pl",
   "way", "parade", "pde", "boulevard", "blvd", "highway", "hwy",
   "terrace", "tce"]

/-- `any(word in street_keywords for word in words)`. -/
def has_street_keyword (words : List String) : Bool :=
  words.any (fun w => street_keywords.contains w)

/-- `len(words) == 1 and len(q) >= 3`. -/
def single_word_cond (q : String) (words : List String) : Bool :=
  words.length == 1 && decide (3 ≤ q.length)

/-- `len(words) == 2 and not any(c.isdigit() for c in q)`. -/
def two_word_cond (q : String) (words : List String) : Bool :=
  words.length == 2 && !(q.data.any Char.isDigit)

/-- `_classify_intent`: the heuristic intent classifier, a first-match
cascade over the query tokens. -/
def _classify_intent (query : String) : String :=
  if starts_with_digit (query_words query) then "address"
  else if has_street_keyword (query_words query) then "street"
  else if single_word_cond (query_norm query) (query_words query) then "suburb"
  else if two_word_cond (query_norm query) (query_words query) then "suburb"
  else "general"

/-- `_format_suggestion`: projection of a suggestion onto the seven
fields sent to the browser state bridge.  On our structured model the
`dict.get` defaults are already the field defaults, so the projection
drops the enrichment-only fields. -/
def _format_suggestion (s : Suggestion) : Suggestion :=
  { placeId := s.placeId
    description := s.description
    resultType := s.resultType
    suburb := s.suburb
    confidence := s.confidence
    types := s.types
    structuredFormatting := s.structuredFormatting }

/-- The `except` branch of `_push_state_update`: attempt every push of
the operation against the channel and collect a log line for each one
that raised.  The channel can influence nothing but these log lines. -/
def push_log (chan : PushChannel) (sid : String) (ps : List Push) : List String :=
  ps.filterMap (fun p =>
    if chan sid p.updateType "data" then none
    else some "[tools] Failed to push state update")

/-- `_reset_state`. -/
def _reset_state (st : SessionState) : SessionState :=
  { st with last_query := none, last_suggestions := [],
            current_selection := none, selection_acknowledged := false }

/-- `result or {}` followed by `.get(...)` defaults: an absent response
behaves like an all-default value. -/
def result_to_value : Except String SuggestValue → SuggestValue
  | .ok v => v
  | .error _ => {}

/-- The loose lookup request issued by the address branch of
`search_address`. -/
def loose_request (query : String) : SuggestRequest :=
  { query := query, intent := "general", maxResults := none, isAutocomplete := true }

/-- The strict validation request issued by the address branch of
`search_address`. -/
def strict_request (query : String) : SuggestRequest :=
  { query := query, intent := "address", maxResults := some 1, isAutocomplete := false }

/-- The single request issued by the non-address branch of
`search_address`. -/
def mode_request (query intent : String) : SuggestRequest :=
  { query := query, intent := intent, maxResults := some 5, isAutocomplete := true }

/-- The `strict_value` local of `search_address`. -/
def strict_value_of (backend : SuggestBackend) (query : String) : SuggestValue :=
  result_to_value (backend (strict_request query))

/-- The `loose_value` local of `search_address`. -/
def loose_value_of (backend : SuggestBackend) (query : String) : SuggestValue :=
  result_to_value (backend (loose_request query))

def note_validated : String :=
  "IMPORTANT: Do NOT read the address aloud. The user can see it on screen. Just say something brief like \x27Found it\x27 or \x27That\x27s on screen now\x27."

def note_loose : String :=
  "IMPORTANT: Do NOT read addresses aloud or state the count. Just say \x27some options are on screen\x27 or similar."

def note_mode : String :=
  "IMPORTANT: Do NOT read addresses aloud, state the count, or describe the results. Just say \x27options are on screen\x27 or \x27take a look\x27."

/-- `search_address`: clears the selection, classifies the query, runs
the dual strict/loose lookup for address intent or a single lookup
otherwise, stores query and candidates on success and pushes a
`suggestions` update. -/
def search_address (backend : SuggestBackend) (chan : PushChannel)
    (st0 : SessionState) (query : String) : OpResult :=
  let st := { st0 with current_selection := none, selection_acknowledged := false }
  let intent := _classify_intent query
  if intent = "address" then
    let strict_value := strict_value_of backend query
    let loose_value := loose_value_of backend query
    if strict_value.success && !strict_value.suggestions.isEmpty then
      let validated := strict_value.suggestions.headD default
      let all_suggestions :=
        if loose_value.success then loose_value.suggestions else [validated]
      let detected_intent := strict_value.detectedIntent.getD intent
      let st1 := { st with last_query := some query, last_suggestions := all_suggestions }
      let ps : List Push :=
        [⟨"suggestions", .suggestionsData query detected_intent
            (all_suggestions.map _format_suggestion)⟩]
      ⟨st1, .validated 1 "Found it — it\x27s on screen." note_validated,
        ps, push_log chan st1.session_id ps⟩
    else if loose_value.success && !loose_value.suggestions.isEmpty then
      let suggestions := loose_value.suggestions
      let detected_intent := loose_value.detectedIntent.getD intent
      let st1 := { st with last_query := some query, last_suggestions := suggestions }
      let ps : List Push :=
        [⟨"suggestions", .suggestionsData query detected_intent
            (suggestions.map _format_suggestion)⟩]
      ⟨st1, .suggestions_available suggestions.length "Some options are on screen." note_loose,
        ps, push_log chan st1.session_id ps⟩
    else
      ⟨st, .validation_failed "The provided address could not be validated.", [], []⟩
  else
    match backend (mode_request query intent) with
    | .error e => ⟨st, .error_result ("Search failed: " ++ e), [], []⟩
    | .ok value =>
      if !value.success then
        ⟨st, .error_result (value.error.getD "Unknown error"), [], []⟩
      else
        let suggestions := value.suggestions
        let detected_intent := value.detectedIntent.getD intent
        let st1 := { st with last_query := some query, last_suggestions := suggestions }
        let ps : List Push :=
          [⟨"suggestions", .suggestionsData query detected_intent
              (suggestions.map _format_suggestion)⟩]
        if suggestions.isEmpty then
          ⟨st1, .no_results ("No results for \x27" ++ query ++ "\x27. Could you try a different search?"),
            ps, push_log chan st1.session_id ps⟩
        else
          ⟨st1, .suggestions_available suggestions.length "Options are on screen." note_mode,
            ps, push_log chan st1.session_id ps⟩

/-- The enrichment step of `select_suggestion`: merge place details
onto a copy of the candidate; a failed call or unsuccessful response
leaves the candidate as is. -/
def enrich_with_details (details : DetailsBackend) (suggestion : Suggestion)
    (place_id : String) : Suggestion :=
  match details place_id with
  | .error _ => suggestion
  | .ok value =>
    match value.details with
    | none => suggestion
    | some d =>
      if value.success then
        { suggestion with
          description := d.formattedAddress.getD suggestion.description
          suburb := (d.suburb).orElse (fun _ => suggestion.suburb)
          postcode := d.postcode
          lat := d.lat
          lng := d.lng
          types := d.types.getD suggestion.types }
      else suggestion

/-- `select_suggestion`: find the candidate with the given place id,
enrich it (best effort), install it as the current selection and push a
`selection` update.  `selection_acknowledged` is not touched. -/
def select_suggestion (details : DetailsBackend) (chan : PushChannel)
    (st0 : SessionState) (place_id : String) : OpResult :=
  match st0.last_suggestions.find? (fun s => s.placeId == place_id) with
  | none =>
    ⟨st0, .not_found ("No suggestion with place ID \x27" ++ place_id ++
        "\x27 in current results. Use search_address to refresh."), [], []⟩
  | some suggestion =>
    let enriched := enrich_with_details details suggestion place_id
    let st1 := { st0 with current_selection := some enriched }
    let ps : List Push := [⟨"selection", .selectionData (_format_suggestion enriched)⟩]
    ⟨st1, .confirmed_result "Done."
        "IMPORTANT: Do NOT read the address aloud. It is visible on screen. Say \x27got it\x27, \x27done\x27, or ask what\x27s next.",
      ps, push_log chan st1.session_id ps⟩

/-- The fixed `ordinal_map` lookup table of `select_by_ordinal`. -/
def ordinal_map (tok : String) : Option Nat :=
  if tok == "first" || tok == "1" || tok == "1st" then some 0
  else if tok == "second" || tok == "2" || tok == "2nd" then some 1
  else if tok == "third" || tok == "3" || tok == "3rd" then some 2
  else if tok == "fourth" || tok == "4" || tok == "4th" then some 3
  else if tok == "fifth" || tok == "5" || tok == "5th" then some 4
  else none

/-- `select_by_ordinal`: resolve an ordinal token against the stored
candidate list and delegate to `select_suggestion`; performs no backend
call of its own. -/
def select_by_ordinal (details : DetailsBackend) (chan : PushChannel)
    (st0 : SessionState) (ordinal : String) : OpResult :=
  match ordinal_map (py_strip (py_lower ordinal)) with
  | none =>
    ⟨st0, .error_result ("Didn\x27t understand \x27" ++ ordinal ++
        "\x27. Please say first, second, third, etc."), [], []⟩
  | some index =>
    let suggestions := st0.last_suggestions
    if suggestions.isEmpty then
      ⟨st0, .error_result "No search results to select from. Please search for an address first.", [], []⟩
    else if suggestions.length ≤ index then
      ⟨st0, .error_result ("Only " ++ toString suggestions.length ++
          " results available. Choose 1 to " ++ toString suggestions.length ++ "."), [], []⟩
    else
      let selected := suggestions.getD index default
      let place_id := selected.placeId
      if place_id == "" then
        ⟨st0, .error_result "That suggestion doesn\x27t have a valid place ID. Try another.", [], []⟩
      else
        select_suggestion details chan st0 place_id

/-- `get_current_state`: read-only projection of the session state. -/
def get_current_state (st0 : SessionState) : OpResult :=
  ⟨st0,
    .state_dump st0.last_query st0.last_suggestions.length
      st0.current_selection.isSome st0.selection_acknowledged
      (st0.current_selection.map (fun s => (s.description, s.suburb, s.postcode))),
    [], []⟩

/-- `clear_selection`: full state reset plus a `clear` push. -/
def clear_selection (chan : PushChannel) (st0 : SessionState) : OpResult :=
  let st1 := _reset_state st0
  let ps : List Push := [⟨"clear", .clearData⟩]
  ⟨st1, .cleared "Ready for a new search.", ps, push_log chan st1.session_id ps⟩

/-- Python truthiness of the stored `last_query` (`not query`): `None`
and the empty string are falsy. -/
def falsy_query : Option String → Bool
  | none => true
  | some s => s == ""

/-- `show_options_again`: re-emit the stored candidate list, after
revoking any current selection. -/
def show_options_again (chan : PushChannel) (st0 : SessionState) : OpResult :=
  let suggestions := st0.last_suggestions
  let query := st0.last_query
  if suggestions.isEmpty || falsy_query query then
    ⟨st0, .error_result "No previous options available.", [], []⟩
  else
    let st1 := { st0 with current_selection := none, selection_acknowledged := false }
    let ps : List Push :=
      [⟨"show_options_again", .suggestionsData (query.getD "") "general"
          (suggestions.map _format_suggestion)⟩]
    ⟨st1, .options_displayed suggestions.length "Previous options are on screen again."
        "Do NOT list the options. They are visible on screen.",
      ps, push_log chan st1.session_id ps⟩

/-- `confirm_user_selection`: workflow checkpoint, no state change. -/
def confirm_user_selection (st0 : SessionState) : OpResult :=
  match st0.current_selection with
  | none => ⟨st0, .error_result "No selection to confirm.", [], []⟩
  | some _ => ⟨st0, .acknowledged_result "Selection confirmed.", [], []⟩

/-- `set_selection_acknowledged`: parse a boolean-like token and store
it, pushing a `selection_acknowledged` update. -/
def set_selection_acknowledged (chan : PushChannel) (st0 : SessionState)
    (acknowledged : String) : OpResult :=
  let t := py_strip (py_lower acknowledged)
  let is_ack := t == "true" || t == "1" || t == "yes"
  let st1 := { st0 with selection_acknowledged := is_ack }
  let ps : List Push := [⟨"selection_acknowledged", .acknowledgedData is_ack⟩]
  ⟨st1, .ok_result is_ack, ps, push_log chan st1.session_id ps⟩

/-- `request_manual_input`: stateless `request_manual_input` push. -/
def request_manual_input (chan : PushChannel) (st0 : SessionState)
    (reason : String) : OpResult :=
  let ps : List Push := [⟨"request_manual_input", .manualInputData reason⟩]
  ⟨st0, .hybrid_mode_activated "Manual input enabled.", ps, push_log chan st0.session_id ps⟩

/-! ### Concrete fixtures used by witnesses and counterexamples -/

/-- A candidate suggestion with place id `p1`. -/
def sug1 : Suggestion := { placeId := "p1", description := "1 Apple St" }

/-- A candidate suggestion with place id `p2`. -/
def sug2 : Suggestion := { placeId := "p2", description := "2 Birch St" }

/-- A candidate suggestion with place id `p3`. -/
def sug3 : Suggestion := { placeId := "p3", description := "3 Cedar St" }

/-- A push channel whose mutations always succeed. -/
def chan_ok : PushChannel := fun _ _ _ => true

/-- A details backend whose calls always raise. -/
def details_down : DetailsBackend := fun _ => .error "details offline"

/-- A suggestions backend whose calls always raise. -/
def bk_down : SuggestBackend := fun _ => .error "boom"

/-- A backend on which every lookup succeeds with zero suggestions. -/
def bk_empty_ok : SuggestBackend := fun _ => .ok { success := true, suggestions := [] }

/-- A backend on which the strict lookup succeeds with one suggestion
and the loose lookup succeeds with an empty list. -/
def bk_strict1_loose0 : SuggestBackend := fun req =>
  if req.intent = "address" then .ok { success := true, suggestions := [sug1] }
  else .ok { success := true, suggestions := [] }

/-- A backend on which the strict lookup succeeds with one suggestion
and the loose lookup succeeds with three. -/
def bk_strict1_loose3 : SuggestBackend := fun req =>
  if req.intent = "address" then .ok { success := true, suggestions := [sug1] }
  else .ok { success := true, suggestions := [sug1, sug2, sug3] }

/-- Session state holding three candidates. -/
def st_three : SessionState :=
  { last_query := some "apple", last_suggestions := [sug1, sug2, sug3] }

/-- Session state holding one candidate. -/
def st_one : SessionState :=
  { last_query := some "apple", last_suggestions := [sug1] }

/-- Session state with a stored query, a candidate, a current selection
and the acknowledged flag set. -/
def st_full : SessionState :=
  { last_query := some "old query", last_suggestions := [sug1],
    current_selection := some sug3, selection_acknowledged := true }

/-! ### Claim theorems -/

/-- Claim C2: `_classify_intent` applies exactly these checks in this
order with first match winning — leading digit on the first token gives
`address`, any token in the street-keyword table gives `street`, a
single token of length at least three gives `suburb`, exactly two
tokens with no digit anywhere gives `suburb`, anything else `general`;
together with the five concrete examples of the spec. -/
theorem c2_classify_first_match_cascade :
    (∀ query : String,
        starts_with_digit (query_words query) = true →
        _classify_intent query = "address")
  ∧ (∀ query : String,
        starts_with_digit (query_words query) = false →
        has_street_keyword (query_words query) = true →
        _classify_intent query = "street")
  ∧ (∀ query : String,
        starts_with_digit (query_words query) = false →
        has_street_keyword (query_words query) = false →
        single_word_cond (query_norm query) (query_words query) = true →
        _classify_intent query = "suburb")
  ∧ (∀ query : String,
        starts_with_digit (query_words query) = false →
        has_street_keyword (query_words query) = false →
        single_word_cond (query_norm query) (query_words query) = false →
        two_word_cond (query_norm query) (query_words query) = true →
        _classify_intent query = "suburb")
  ∧ (∀ query : String,
        starts_with_digit (query_words query) = false →
        has_street_keyword (query_words query) = false →
        single_word_cond (query_norm query) (query_words query) = false →
        two_word_cond (query_norm query) (query_words query) = false →
        _classify_intent query = "general")
  ∧ _classify_intent "123 Smith Street" = "address"
  ∧ _classify_intent "Smith Street" = "street"
  ∧ _classify_intent "Richmond" = "suburb"
  ∧ _classify_intent "North Richmond" = "suburb"
  ∧ _classify_intent "looking for somewhere nice" = "general" := by
  refine ⟨?_, ?_, ?_, ?_, ?_, by decide, by decide, by decide, by decide, by decide⟩
  · intro q h1; simp [_classify_intent, h1]
  · intro q h1 h2; simp [_classify_intent, h1, h2]
  · intro q h1 h2 h3; simp [_classify_intent, h1, h2, h3]
  · intro q h1 h2 h3 h4; simp [_classify_intent, h1, h2, h3, h4]
  · intro q h1 h2 h3 h4; simp [_classify_intent, h1, h2, h3, h4]

/-- Claim C2 witness: the cascade instantiated at a query whose first
token starts with a digit and at a four-token query. -/
theorem c2_classify_witness :
    _classify_intent "42" = "address" ∧ _classify_intent "one two three four" = "general" :=
  ⟨c2_classify_first_match_cascade.1 "42" (by decide),
   c2_classify_first_match_cascade.2.2.2.2.1 "one two three four"
     (by decide) (by decide) (by decide) (by decide)⟩

/-- Claim C4: for every backend, channel, prior state and query,
`search_address` leaves `current_selection` absent and
`selection_acknowledged` false, regardless of outcome. -/
theorem c4_search_resets_selection (backend : SuggestBackend) (chan : PushChannel)
    (st0 : SessionState) (query : String) :
    (search_address backend chan st0 query).state.current_selection = none ∧
    (search_address backend chan st0 query).state.selection_acknowledged = false := by
  unfold search_address
  dsimp only
  constructor <;> (repeat' split) <;> rfl

/-- Claim C1 counterexample: with strict success (one suggestion) and
loose success with an *empty* list, the claim requires the stored
candidate list to be the strict singleton `[sug1]`; the code stores the
loose lookup\x27s empty list, because it only tests loose *success*,
never non-emptiness. -/
theorem c1_counterexample :
    (strict_value_of bk_strict1_loose0 "12 example rd").success = true
    ∧ (strict_value_of bk_strict1_loose0 "12 example rd").suggestions = [sug1]
    ∧ (loose_value_of bk_strict1_loose0 "12 example rd").success = true
    ∧ (loose_value_of bk_strict1_loose0 "12 example rd").suggestions = []
    ∧ status_of (search_address bk_strict1_loose0 chan_ok {} "12 example rd").result
        = some "validated"
    ∧ (search_address bk_strict1_loose0 chan_ok {} "12 example rd").state.last_suggestions = []
    ∧ ([] : List Suggestion) ≠ [sug1] := by
  refine ⟨by decide, by decide, by decide, by decide, by decide, by decide, by decide⟩

/-- Claim C1 (amended): when the strict lookup succeeds with at least
one suggestion, `search_address` returns status `validated` and stores
as the candidate list the loose lookup\x27s suggestion list whenever the
loose lookup succeeded — even if that list is empty — and otherwise a
singleton containing just the strict result; with strict success
(1 result) and loose success (3 results) the stored list has length 3. -/
theorem c1_validated_stores_loose_list (backend : SuggestBackend) (chan : PushChannel)
    (st0 : SessionState) (query : String) (v : Suggestion) (vs : List Suggestion)
    (hintent : _classify_intent query = "address")
    (hsucc : (strict_value_of backend query).success = true)
    (hsugg : (strict_value_of backend query).suggestions = v :: vs) :
    status_of (search_address backend chan st0 query).result = some "validated"
    ∧ (search_address backend chan st0 query).state.last_query = some query
    ∧ (search_address backend chan st0 query).state.last_suggestions =
        (if (loose_value_of backend query).success then
          (loose_value_of backend query).suggestions
        else [v]) := by
  unfold search_address
  dsimp only
  simp [hintent, hsucc, hsugg, status_of]

/-- Claim C1 witness: the amended theorem at strict success with one
result and loose success with three — the stored list has length 3. -/
theorem c1_witness :
    status_of (search_address bk_strict1_loose3 chan_ok {} "12 example rd").result
      = some "validated"
    ∧ (search_address bk_strict1_loose3 chan_ok {} "12 example rd").state.last_suggestions.length
      = 3 := by
  have h := c1_validated_stores_loose_list bk_strict1_loose3 chan_ok {} "12 example rd"
    sug1 [] (by decide) (by decide) (by decide)
  exact ⟨h.1, by rw [h.2.2]; decide⟩

/-- Claim C3: `select_by_ordinal` resolves the token through the fixed
first/1/1st … fifth/5/5th table; an unrecognized token errors naming
the literal input; a recognized token against an empty candidate list
errors with the no-results message; an in-table index at or beyond the
candidate count errors stating the valid count; a resolved candidate
with an empty place id errors without delegating; and otherwise the
call delegates to `select_suggestion` on the candidate at that index,
performing no backend call of its own (the error branches are fixed
tuples independent of the details backend). -/
theorem c3_select_by_ordinal_contract (details : DetailsBackend) (chan : PushChannel)
    (st0 : SessionState) (ordinal : String) :
    (ordinal_map "first" = some 0 ∧ ordinal_map "1" = some 0 ∧ ordinal_map "1st" = some 0
      ∧ ordinal_map "second" = some 1 ∧ ordinal_map "2" = some 1 ∧ ordinal_map "2nd" = some 1
      ∧ ordinal_map "third" = some 2 ∧ ordinal_map "3" = some 2 ∧ ordinal_map "3rd" = some 2
      ∧ ordinal_map "fourth" = some 3 ∧ ordinal_map "4" = some 3 ∧ ordinal_map "4th" = some 3
      ∧ ordinal_map "fifth" = some 4 ∧ ordinal_map "5" = some 4 ∧ ordinal_map "5th" = some 4
      ∧ ordinal_map "tenth" = none)
  ∧ (ordinal_map (py_strip (py_lower ordinal)) = none →
      select_by_ordinal details chan st0 ordinal =
        ⟨st0, .error_result ("Didn\x27t understand \x27" ++ ordinal ++
            "\x27. Please say first, second, third, etc."), [], []⟩)
  ∧ (∀ index : Nat, ordinal_map (py_strip (py_lower ordinal)) = some index →
      st0.last_suggestions = [] →
      select_by_ordinal details chan st0 ordinal =
        ⟨st0, .error_result "No search results to select from. Please search for an address first.",
          [], []⟩)
  ∧ (∀ index : Nat, ordinal_map (py_strip (py_lower ordinal)) = some index →
      st0.last_suggestions ≠ [] →
      st0.last_suggestions.length ≤ index →
      select_by_ordinal details chan st0 ordinal =
        ⟨st0, .error_result ("Only " ++ toString st0.last_suggestions.length ++
            " results available. Choose 1 to " ++ toString st0.last_suggestions.length ++ "."),
          [], []⟩)
  ∧ (∀ index : Nat, ordinal_map (py_strip (py_lower ordinal)) = some index →
      index < st0.last_suggestions.length →
      (st0.last_suggestions.getD index default).placeId = "" →
      select_by_ordinal details chan st0 ordinal =
        ⟨st0, .error_result "That suggestion doesn\x27t have a valid place ID. Try another.",
          [], []⟩)
  ∧ (∀ index : Nat, ordinal_map (py_strip (py_lower ordinal)) = some index →
      index < st0.last_suggestions.length →
      (st0.last_suggestions.getD index default).placeId ≠ "" →
      select_by_ordinal details chan st0 ordinal =
        select_suggestion details chan st0 (st0.last_suggestions.getD index default).placeId) := by
  refine ⟨by decide, ?_, ?_, ?_, ?_, ?_⟩
  · intro h
    simp [select_by_ordinal, h]
  · intro index h hempty
    simp [select_by_ordinal, h, hempty]
  · intro index h hne hlen
    have h1 : st0.last_suggestions.isEmpty = false := by
      simpa using hne
    simp [select_by_ordinal, h, h1, hlen]
  · intro index h hlt hpid
    have hne : st0.last_suggestions ≠ [] := by
      intro hnil; rw [hnil] at hlt; simp at hlt
    have h1 : st0.last_suggestions.isEmpty = false := by simpa using hne
    have h2 : ¬ st0.last_suggestions.length ≤ index := by omega
    simp [List.getD] at hpid
    simp [select_by_ordinal, h, h1, h2, hpid]
  · intro index h hlt hpid
    have hne : st0.last_suggestions ≠ [] := by
      intro hnil; rw [hnil] at hlt; simp at hlt
    have h1 : st0.last_suggestions.isEmpty = false := by simpa using hne
    have h2 : ¬ st0.last_suggestions.length ≤ index := by omega
    simp [List.getD] at hpid
    simp [select_by_ordinal, h, h1, h2, hpid]

/-- Claim C3 witness: the contract at the spec\x27s concrete examples —
`second` on a three-item list delegates to `select_suggestion` on the
candidate at index 1; `second` on a one-item list yields the
out-of-range error naming the single available result; `tenth` yields
the unrecognized-ordinal error. -/
theorem c3_witness :
    select_by_ordinal details_down chan_ok st_three "second" =
      select_suggestion details_down chan_ok st_three "p2"
    ∧ (select_by_ordinal details_down chan_ok st_one "second").result =
        .error_result ("Only 1 results available." ++ " Choose 1 to 1.")
    ∧ (select_by_ordinal details_down chan_ok st_three "tenth").result =
        .error_result "Didn\x27t understand \x27tenth\x27. Please say first, second, third, etc." := by
  refine ⟨?_, ?_, ?_⟩
  · have h := (c3_select_by_ordinal_contract details_down chan_ok st_three "second").2.2.2.2.2
      1 (by decide) (by decide) (by decide)
    rw [h]; decide
  · have h := (c3_select_by_ordinal_contract details_down chan_ok st_one "second").2.2.2.1
      1 (by decide) (by decide) (by decide)
    rw [h]; decide
  · have h := (c3_select_by_ordinal_contract details_down chan_ok st_three "tenth").2.1
      (by decide)
    rw [h]; decide

/-- Claim C5 counterexample: starting from a state with one candidate
and a previous selection, setting the acknowledged flag to true via
`set_selection_acknowledged` and then replacing the selection via
`select_suggestion` leaves `selection_acknowledged` equal to true —
`select_suggestion` never resets it, contradicting the claim that every
operation replacing `current_selection` sets it back to false. -/
theorem c5_counterexample :
    (set_selection_acknowledged chan_ok st_full "true").state.selection_acknowledged = true
    ∧ (select_suggestion details_down chan_ok
        (set_selection_acknowledged chan_ok st_full "true").state "p1").state.current_selection
      = some sug1
    ∧ (select_suggestion details_down chan_ok
        (set_selection_acknowledged chan_ok st_full "true").state "p1").state.selection_acknowledged
      = true
    ∧ true ≠ false := by
  refine ⟨by decide, by decide, by decide, by decide⟩

/-- Claim C5 (amended): the operations that *clear* the selection
(`search_address`, `clear_selection` and a successful
`show_options_again`) all set `selection_acknowledged` back to false,
but `select_suggestion`, which *replaces* the selection, leaves
`selection_acknowledged` at its prior value — so after
select-by-identifier the flag is false only if it was false before. -/
theorem c5_clearing_ops_reset_acknowledged (backend : SuggestBackend)
    (details : DetailsBackend) (chan : PushChannel) (st0 : SessionState)
    (query place_id : String) :
    ((search_address backend chan st0 query).state.selection_acknowledged = false
      ∧ (search_address backend chan st0 query).state.current_selection = none)
  ∧ ((clear_selection chan st0).state.selection_acknowledged = false
      ∧ (clear_selection chan st0).state.current_selection = none)
  ∧ ((st0.last_suggestions.isEmpty || falsy_query st0.last_query) = false →
      (show_options_again chan st0).state.selection_acknowledged = false
      ∧ (show_options_again chan st0).state.current_selection = none)
  ∧ (select_suggestion details chan st0 place_id).state.selection_acknowledged
      = st0.selection_acknowledged := by
  refine ⟨?_, ⟨rfl, rfl⟩, ?_, ?_⟩
  · unfold search_address
    dsimp only
    constructor <;> (repeat' split) <;> rfl
  · intro h
    constructor <;> simp [show_options_again, h]
  · unfold select_suggestion
    repeat' split <;> rfl

/-- Claim C5 witness: the amended theorem applied to a state with a
stored candidate list and query: `show_options_again` succeeds there
and resets the flag, and `select_suggestion` keeps the prior (true)
flag value. -/
theorem c5_witness :
    (show_options_again chan_ok st_full).state.selection_acknowledged = false
    ∧ (select_suggestion details_down chan_ok st_full "p1").state.selection_acknowledged
      = st_full.selection_acknowledged := by
  have h := c5_clearing_ops_reset_acknowledged bk_down details_down chan_ok st_full "q" "p1"
  exact ⟨(h.2.2.1 (by decide)).1, h.2.2.2⟩

/-- Claim C6 counterexample: a non-address search whose lookup raises
does return an error outcome, but the session state is *not* equal to
the pre-call state — the selection and acknowledged flag were already
cleared before the lookup ran. -/
theorem c6_counterexample :
    _classify_intent "North Richmond" = "suburb"
    ∧ (search_address bk_down chan_ok st_full "North Richmond").result =
        .error_result "Search failed: boom"
    ∧ st_full.current_selection = some sug3
    ∧ (search_address bk_down chan_ok st_full "North Richmond").state.current_selection = none
    ∧ (search_address bk_down chan_ok st_full "North Richmond").state ≠ st_full := by
  refine ⟨by decide, by decide, by decide, by decide, by decide⟩

/-- Claim C6 (amended): when a non-address search has its single
backend lookup raise, `search_address` returns an error outcome,
attempts no push, and the resulting state is the pre-call state with
`current_selection` and `selection_acknowledged` cleared — `last_query`
and the candidate list are untouched, but the selection reset always
happens, so the state equals the pre-call state only when that state
already had no selection and an unset flag. -/
theorem c6_nonaddress_failure_frame (backend : SuggestBackend) (chan : PushChannel)
    (st0 : SessionState) (query e : String)
    (hintent : _classify_intent query ≠ "address")
    (hbk : backend (mode_request query (_classify_intent query)) = .error e) :
    search_address backend chan st0 query =
      ⟨{ st0 with current_selection := none, selection_acknowledged := false },
        .error_result ("Search failed: " ++ e), [], []⟩ := by
  unfold search_address
  dsimp only
  simp [hintent, hbk]

/-- Claim C6 witness: the amended theorem at a concrete failing
backend and a suburb-intent query. -/
theorem c6_witness :
    search_address bk_down chan_ok st_full "North Richmond" =
      ⟨{ st_full with current_selection := none, selection_acknowledged := false },
        .error_result ("Search failed: " ++ "boom"), [], []⟩ :=
  c6_nonaddress_failure_frame bk_down chan_ok st_full "North Richmond" "boom"
    (by decide) rfl

/-- Claim C7 counterexample: a non-address search whose lookup succeeds
with zero suggestions returns the no-results outcome but *does* attempt
a `suggestions` push (carrying the empty list) — the notification is
issued before the empty check, contradicting the claim that no
notification is emitted. -/
theorem c7_counterexample :
    _classify_intent "North Richmond" = "suburb"
    ∧ status_of (search_address bk_empty_ok chan_ok {} "North Richmond").result
        = some "no_results"
    ∧ (search_address bk_empty_ok chan_ok {} "North Richmond").pushes =
        [⟨"suggestions", .suggestionsData "North Richmond" "suburb" []⟩]
    ∧ (search_address bk_empty_ok chan_ok {} "North Richmond").pushes ≠ [] := by
  refine ⟨by decide, by decide, by decide, by decide⟩

/-- Claim C7 (amended): a non-address search whose lookup succeeds with
zero suggestions returns the no-results outcome, but first stores the
query and the empty candidate list and attempts one `suggestions`
notification carrying the empty list. -/
theorem c7_no_results_still_notifies (backend : SuggestBackend) (chan : PushChannel)
    (st0 : SessionState) (query : String) (v : SuggestValue)
    (hintent : _classify_intent query ≠ "address")
    (hbk : backend (mode_request query (_classify_intent query)) = .ok v)
    (hsucc : v.success = true)
    (hempty : v.suggestions = []) :
    search_address backend chan st0 query =
      ⟨{ st0 with
          last_query := some query, last_suggestions := [],
          current_selection := none, selection_acknowledged := false },
        .no_results ("No results for \x27" ++ query ++ "\x27. Could you try a different search?"),
        [⟨"suggestions", .suggestionsData query (v.detectedIntent.getD (_classify_intent query)) []⟩],
        push_log chan st0.session_id
          [⟨"suggestions", .suggestionsData query (v.detectedIntent.getD (_classify_intent query)) []⟩]⟩ := by
  unfold search_address
  dsimp only
  simp [hintent, hbk, hsucc, hempty]

/-- Claim C7 witness: the amended theorem at the concrete all-empty
backend and the suburb-intent query. -/
theorem c7_witness :
    search_address bk_empty_ok chan_ok {} "North Richmond" =
      ⟨{ ({} : SessionState) with
          last_query := some "North Richmond", last_suggestions := [],
          current_selection := none, selection_acknowledged := false },
        .no_results ("No results for \x27" ++ "North Richmond" ++ "\x27. Could you try a different search?"),
        [⟨"suggestions", .suggestionsData "North Richmond"
            (Option.getD none (_classify_intent "North Richmond")) []⟩],
        push_log chan_ok "default"
          [⟨"suggestions", .suggestionsData "North Richmond"
              (Option.getD none (_classify_intent "North Richmond")) []⟩]⟩ :=
  c7_no_results_still_notifies bk_empty_ok chan_ok {} "North Richmond"
    { success := true, suggestions := [] } (by decide) rfl rfl rfl

/-- Claim C8: for every operation that pushes notifications and every
input, the behavior of the push channel (success or raised failure)
never changes the operation\x27s returned payload, its final session
state, or even the list of attempted pushes — only the swallowed
failure log differs. -/
theorem c8_push_failure_never_changes_result (backend : SuggestBackend)
    (details : DetailsBackend) (chan chan2 : PushChannel) (st0 : SessionState)
    (query place_id ordinal ack reason : String) :
    ((search_address backend chan st0 query).state = (search_address backend chan2 st0 query).state
      ∧ (search_address backend chan st0 query).result = (search_address backend chan2 st0 query).result
      ∧ (search_address backend chan st0 query).pushes = (search_address backend chan2 st0 query).pushes)
  ∧ ((select_suggestion details chan st0 place_id).state = (select_suggestion details chan2 st0 place_id).state
      ∧ (select_suggestion details chan st0 place_id).result = (select_suggestion details chan2 st0 place_id).result
      ∧ (select_suggestion details chan st0 place_id).pushes = (select_suggestion details chan2 st0 place_id).pushes)
  ∧ ((select_by_ordinal details chan st0 ordinal).state = (select_by_ordinal details chan2 st0 ordinal).state
      ∧ (select_by_ordinal details chan st0 ordinal).result = (select_by_ordinal details chan2 st0 ordinal).result
      ∧ (select_by_ordinal details chan st0 ordinal).pushes = (select_by_ordinal details chan2 st0 ordinal).pushes)
  ∧ ((clear_selection chan st0).state = (clear_selection chan2 st0).state
      ∧ (clear_selection chan st0).result = (clear_selection chan2 st0).result
      ∧ (clear_selection chan st0).pushes = (clear_selection chan2 st0).pushes)
  ∧ ((show_options_again chan st0).state = (show_options_again chan2 st0).state
      ∧ (show_options_again chan st0).result = (show_options_again chan2 st0).result
      ∧ (show_options_again chan st0).pushes = (show_options_again chan2 st0).pushes)
  ∧ ((set_selection_acknowledged chan st0 ack).state = (set_selection_acknowledged chan2 st0 ack).state
      ∧ (set_selection_acknowledged chan st0 ack).result = (set_selection_acknowledged chan2 st0 ack).result
      ∧ (set_selection_acknowledged chan st0 ack).pushes = (set_selection_acknowledged chan2 st0 ack).pushes)
  ∧ ((request_manual_input chan st0 reason).state = (request_manual_input chan2 st0 reason).state
      ∧ (request_manual_input chan st0 reason).result = (request_manual_input chan2 st0 reason).result
      ∧ (request_manual_input chan st0 reason).pushes = (request_manual_input chan2 st0 reason).pushes) := by
  have hss : ∀ pid : String,
      (select_suggestion details chan st0 pid).state = (select_suggestion details chan2 st0 pid).state
      ∧ (select_suggestion details chan st0 pid).result = (select_suggestion details chan2 st0 pid).result
      ∧ (select_suggestion details chan st0 pid).pushes = (select_suggestion details chan2 st0 pid).pushes := by
    intro pid
    unfold select_suggestion
    refine ⟨?_, ?_, ?_⟩ <;> (repeat' split) <;> rfl
  refine ⟨?_, hss place_id, ?_, ⟨rfl, rfl, rfl⟩, ?_, ⟨rfl, rfl, rfl⟩, ⟨rfl, rfl, rfl⟩⟩
  · unfold search_address
    dsimp only
    refine ⟨?_, ?_, ?_⟩ <;> (repeat' split) <;> rfl
  · unfold select_by_ordinal
    dsimp only
    refine ⟨?_, ?_, ?_⟩ <;> (repeat' split) <;>
      first
        | rfl
        | exact (hss _).1
        | exact (hss _).2.1
        | exact (hss _).2.2
  · unfold show_options_again
    dsimp only
    refine ⟨?_, ?_, ?_⟩ <;> (repeat' split) <;> rfl

/-- Claim C9 counterexample: `set_selection_acknowledged` on input
`"true"` does set the flag, but the notification it pushes has
updateType `selection_acknowledged`, which differs from the claimed
`acknowledged` and is not among the spec\x27s enumerated kinds. -/
theorem c9_counterexample :
    (set_selection_acknowledged chan_ok {} "true").state.selection_acknowledged = true
    ∧ (set_selection_acknowledged chan_ok {} "true").pushes.map Push.updateType
        = ["selection_acknowledged"]
    ∧ "selection_acknowledged" ≠ "acknowledged" := by
  refine ⟨by decide, by decide, by decide⟩

/-- Claim C9 (amended): `set_selection_acknowledged` sets the flag to
true exactly when the input, lowered and stripped, is `true`, `1` or
`yes` (false otherwise), has no precondition on a selection being
present, and pushes one notification whose updateType is the string
`selection_acknowledged` — not the `acknowledged` kind enumerated by
the spec. -/
theorem c9_set_acknowledged_behavior (chan : PushChannel) (st0 : SessionState) (s : String) :
    (set_selection_acknowledged chan st0 s).state =
      { st0 with selection_acknowledged :=
          (py_strip (py_lower s) == "true" || py_strip (py_lower s) == "1"
            || py_strip (py_lower s) == "yes") }
    ∧ (set_selection_acknowledged chan st0 s).result =
      .ok_result (py_strip (py_lower s) == "true" || py_strip (py_lower s) == "1"
            || py_strip (py_lower s) == "yes")
    ∧ (set_selection_acknowledged chan st0 s).pushes =
      [⟨"selection_acknowledged", .acknowledgedData
          (py_strip (py_lower s) == "true" || py_strip (py_lower s) == "1"
            || py_strip (py_lower s) == "yes")⟩]
    ∧ (set_selection_acknowledged chan_ok {} " TRUE ").state.selection_acknowledged = true
    ∧ (set_selection_acknowledged chan_ok {} "Yes").state.selection_acknowledged = true
    ∧ (set_selection_acknowledged chan_ok {} "1").state.selection_acknowledged = true
    ∧ (set_selection_acknowledged chan_ok {} "no").state.selection_acknowledged = false := by
  refine ⟨rfl, rfl, rfl, by decide, by decide, by decide, by decide⟩

/-- Claim C10: an address-intent search on which both the strict and
the loose lookup failed or returned no suggestions ends in the
validation-failed outcome, attempts no push, and leaves `last_query`
and the candidate list at their pre-call values — only the selection
and the acknowledged flag are cleared — so ordinal selection afterwards
runs against the unchanged candidate list. -/
theorem c10_validation_failed_keeps_candidates (backend : SuggestBackend)
    (chan : PushChannel) (st0 : SessionState) (query : String)
    (hintent : _classify_intent query = "address")
    (hstrict : (strict_value_of backend query).success = false
      ∨ (strict_value_of backend query).suggestions = [])
    (hloose : (loose_value_of backend query).success = false
      ∨ (loose_value_of backend query).suggestions = []) :
    search_address backend chan st0 query =
      ⟨{ st0 with current_selection := none, selection_acknowledged := false },
        .validation_failed "The provided address could not be validated.", [], []⟩
    ∧ (∀ (details : DetailsBackend) (chan2 : PushChannel) (ordinal : String),
        select_by_ordinal details chan2 (search_address backend chan st0 query).state ordinal =
        select_by_ordinal details chan2
          { st0 with current_selection := none, selection_acknowledged := false } ordinal) := by
  have hs : ((strict_value_of backend query).success
      && !(strict_value_of backend query).suggestions.isEmpty) = false := by
    rcases hstrict with h | h <;> simp [h]
  have hl : ((loose_value_of backend query).success
      && !(loose_value_of backend query).suggestions.isEmpty) = false := by
    rcases hloose with h | h <;> simp [h]
  have heq : search_address backend chan st0 query =
      ⟨{ st0 with current_selection := none, selection_acknowledged := false },
        .validation_failed "The provided address could not be validated.", [], []⟩ := by
    unfold search_address
    dsimp only
    simp [hintent, hs, hl]
  exact ⟨heq, fun details chan2 ordinal => by rw [heq]⟩

/-- Claim C10 witness: with both lookups raising, a previously stored
candidate remains in place after the failed address search. -/
theorem c10_witness :
    (search_address bk_down chan_ok st_full "12 example rd").state.last_suggestions =
      [sug1]
    ∧ (search_address bk_down chan_ok st_full "12 example rd").result =
      .validation_failed "The provided address could not be validated." := by
  have h := (c10_validation_failed_keeps_candidates bk_down chan_ok st_full "12 example rd"
    (by decide) (Or.inl rfl) (Or.inl rfl)).1
  rw [h]
  exact ⟨rfl, rfl⟩

end CartesiaTools

